import Mathlib

/-!
Verification of the reconciliation engine, identity resolution and
scheduler loop of `spotify-archiver` (`index.js`), shallowly embedded in
Lean 4.  Track URIs are plain strings; JS arrays become `List String`;
the persisted `playlists` object becomes an association list keyed by
playlist id; remote calls become explicit parameters recording what each
read returned, and the list of issued remote add calls is part of the
result so that call structure can be reasoned about.
-/

/-- Embeds `diff(a, b)` from index.js:
`a.filter(element => !b.includes(element))` — elements of `a` that do not
occur in `b`, keeping the order of `a`.  `includes` is exact string
equality, as is `∈` here. -/
def diff (a b : List String) : List String :=
  a.filter fun element => !decide (element ∈ b)

/-- Embeds `mergeUnique(a, b)` from index.js:
`[...new Set([...a, ...b])]` — the concatenation of `a` and `b` with
duplicates removed, keeping the first occurrence of each element in
insertion order.  `List.dedup` keeps the last occurrence, so the
concatenation is reversed, deduplicated, and reversed back. -/
def mergeUnique (a b : List String) : List String :=
  ((a ++ b).reverse.dedup).reverse

/-- A persisted per-playlist record, `persist.playlists[id]` in index.js.
Fresh records are created as `{tracks: [], blacklist: []}` with no `name`
property, hence `name : Option String`. -/
structure PlaylistRecord where
  name : Option String
  tracks : List String
  blacklist : List String
deriving DecidableEq, Repr

/-- Embeds `addTracks(id, list)` from index.js as the list of remote
`addTracksToPlaylist` calls it issues (each call carries its track list;
the playlist id routes the call but does not change its structure).
The JS guard is `Array.isArray(list) && list.length > 0`; the argument
`none` models a non-array value. -/
def addTracks (_id : String) : Option (List String) → List (List String)
  | some list => if list.length > 0 then [list] else []
  | none => []

/-- The observable outcome of one `playlistArchiveContents` run. -/
structure ArchiveResult where
  record : PlaylistRecord
  deletedByMe : List String
  additions : List String
  addCalls : List (List String)
deriving DecidableEq, Repr

/-- Embeds `playlistArchiveContents(sourceId, targetId)` from index.js.
`rec` is `persist.playlists[targetId]` after the create-if-missing guard
(a fresh target passes `⟨none, [], []⟩`).  The two live reads
`getTracks(targetId)` and `getTracks(sourceId)` are passed in as
`tracksTarget` and `tracksSource`; the final resnapshot read
`getTracks(targetId)` happens after the add calls, so it is modelled by
the oracle `remoteTargetAfterAdd`, mapping the list of tracks sent to
whatever the remote then returns.  `targetId` itself is fixed to the
placeholder `"target"` in the issued calls. -/
def playlistArchiveContents (rec : PlaylistRecord)
    (tracksTarget tracksSource : List String)
    (remoteTargetAfterAdd : List String → List String) : ArchiveResult :=
  let deletedByMe := diff rec.tracks tracksTarget
  let blacklist := mergeUnique rec.blacklist deletedByMe
  let newTracks := diff tracksSource tracksTarget
  let newTracksWithoutDeleted := diff newTracks blacklist
  let addCalls := addTracks "target" (some newTracksWithoutDeleted)
  { record :=
      { rec with
          tracks := remoteTargetAfterAdd newTracksWithoutDeleted
          blacklist := blacklist }
    deletedByMe := deletedByMe
    additions := newTracksWithoutDeleted
    addCalls := addCalls }

/-! Identity resolution and the per-run pair loop of `mainScheduler`. -/

/-- One entry of the live snapshot `userPlaylists` fetched once per run
(`spotify.getAllUserPlaylists()`). -/
structure UserPlaylist where
  id : String
  name : String
deriving DecidableEq, Repr

/-- Embeds `objectFilter(obj, predicate)` from index.js over an
association list standing for a JS object (`Object.entries` order). -/
def objectFilter {β : Type} (obj : List (String × β))
    (predicate : String → β → Bool) : List (String × β) :=
  obj.filter fun entry => predicate entry.1 entry.2

/-- Embeds `playlistByNameInPersist(name)` from index.js, with
`persist.playlists` passed explicitly.  Count 1 returns the first (only)
matching record — the entry value, which carries no `id` property;
count 0 returns `undefined` (here `none`); more than one match throws
`Error('Playlist Name not unique')`. -/
def playlistByNameInPersist (name : String)
    (playlists : List (String × PlaylistRecord)) :
    Except String (Option PlaylistRecord) :=
  let filtered := objectFilter playlists fun _ playlist => playlist.name == some name
  let count := filtered.length
  if count = 1 then .ok (filtered.head?.map Prod.snd)
  else if count = 0 then .ok none
  else .error "Playlist Name not unique"

/-- Embeds `playlistByNameInUserPlaylists(name, userPlaylists)` from
index.js: same zero/one/many policy over the live snapshot, returning
the playlist object (which does carry an `id`). -/
def playlistByNameInUserPlaylists (name : String)
    (userPlaylists : List UserPlaylist) : Except String (Option UserPlaylist) :=
  let filtered := userPlaylists.filter fun p => p.name == name
  let count := filtered.length
  if count = 1 then .ok filtered.head?
  else if count = 0 then .ok none
  else .error "Playlist Name not unique"

/-- A configured descriptor, `element.source` or `element.target` of a
settings entry as read by `mainScheduler` (fields accessed: `id`,
`name`). -/
structure Descriptor where
  id : Option String
  name : String
deriving DecidableEq, Repr

/-- One configured archiver pair. -/
structure ArchiverElement where
  source : Descriptor
  target : Descriptor
deriving DecidableEq, Repr

/-- A JS exception as observable in the pair loop: an explicit
`throw new Error(msg)`, or the TypeError raised by reading a property of
`undefined`. -/
inductive JsError where
  | thrown (msg : String)
  | typeError
deriving DecidableEq, Repr

/-- The remote facts one run of the pair loop depends on: the live
user-playlist snapshot fetched once, and the id handed back by
`spotify.createPlaylist` (`none` models a creation failure, which is
caught and logged in its own try block, leaving `targetId` undefined). -/
structure RunEnv where
  userPlaylists : List UserPlaylist
  createPlaylistResult : Option String
deriving DecidableEq, Repr

/-- JS object read `persist.playlists[key]` on the association list. -/
def objGet (obj : List (String × PlaylistRecord)) (key : String) :
    Option PlaylistRecord :=
  (obj.find? fun entry => entry.1 == key).map Prod.snd

/-- JS object write `persist.playlists[key] = v`: replace the value of an
existing key, else append a new entry. -/
def objSet (obj : List (String × PlaylistRecord)) (key : String)
    (v : PlaylistRecord) : List (String × PlaylistRecord) :=
  if (obj.find? fun entry => entry.1 == key).isSome then
    obj.map fun entry => if entry.1 == key then (key, v) else entry
  else
    obj ++ [(key, v)]

/-- The `if (!persist.playlists[id]) persist.playlists[id] = {tracks: [],
blacklist: []}` guard: fresh records carry no `name` property. -/
def ensureRecord (obj : List (String × PlaylistRecord)) (key : String) :
    List (String × PlaylistRecord) :=
  match objGet obj key with
  | some _ => obj
  | none => objSet obj key { name := none, tracks := [], blacklist := [] }

/-- The assignment `persist.playlists[id].name = n` (the record is known
to exist when the JS line runs). -/
def setRecordName (obj : List (String × PlaylistRecord)) (key : String)
    (n : String) : List (String × PlaylistRecord) :=
  match objGet obj key with
  | some r => objSet obj key { r with name := some n }
  | none => obj

/-- Embeds the resolution chain
`element.x.id || playlistByNameInPersist(element.x.name)?.id ||
playlistByNameInUserPlaylists(element.x.name, userPlaylists)?.id`
from `mainScheduler`.  A persisted record carries no `id` property, so
`record?.id` is `undefined` even on a successful persisted lookup and the
chain always continues to the live lookup; either lookup may throw. -/
def resolveDescriptor (persistPlaylists : List (String × PlaylistRecord))
    (userPlaylists : List UserPlaylist) (d : Descriptor) :
    Except JsError (Option String) :=
  match d.id with
  | some i => .ok (some i)
  | none =>
    match playlistByNameInPersist d.name persistPlaylists with
    | .error e => .error (.thrown e)
    | .ok _ =>
      match playlistByNameInUserPlaylists d.name userPlaylists with
      | .error e => .error (.thrown e)
      | .ok (some p) => .ok (some p.id)
      | .ok none => .ok none

/-- Embeds the body of the `for (const element of settings.archiver)`
loop of `mainScheduler` for one element, up to the (not awaited) call of
`playlistArchiveContents`.  Returns the persisted playlists after the
record initialisation and name updates, and `some (sourceId, targetId)`
when reconciliation was invoked for the pair, `none` when the pair was
skipped with the `could not get all IDs` warning.  The name reads
`userPlaylists.find(p => p.id === sourceId).name` (and the same for the
target) dereference the `find` result without a guard, so an id absent
from the snapshot raises a TypeError. -/
def processPair (env : RunEnv) (persistPlaylists : List (String × PlaylistRecord))
    (element : ArchiverElement) :
    Except JsError (List (String × PlaylistRecord) × Option (String × String)) :=
  match resolveDescriptor persistPlaylists env.userPlaylists element.source with
  | .error e => .error e
  | .ok sourceId =>
    match resolveDescriptor persistPlaylists env.userPlaylists element.target with
    | .error e => .error e
    | .ok targetId0 =>
      let targetId :=
        match sourceId, targetId0 with
        | some _, none => env.createPlaylistResult
        | _, _ => targetId0
      match sourceId, targetId with
      | some sid, some tid =>
        match env.userPlaylists.find? fun p => p.id == sid with
        | none => .error .typeError
        | some sourcePl =>
          match env.userPlaylists.find? fun p => p.id == tid with
          | none => .error .typeError
          | some targetPl =>
            let pls := ensureRecord persistPlaylists tid
            let pls := ensureRecord pls sid
            let pls := setRecordName pls sid sourcePl.name
            let pls := setRecordName pls tid targetPl.name
            .ok (pls, some (sid, tid))
      | _, _ => .ok (persistPlaylists, none)

/-- The whole pair loop of `mainScheduler`.  The loop body runs inside
the single run-level `try` block, so the first uncaught exception leaves
the loop: the error is reported (then caught and logged by the run-level
`catch`) and the remaining elements are not processed.  Returns the
outcome list of the processed elements, the final persisted playlists,
and the error that ended the loop early, if any. -/
def mainSchedulerPairsLoop (env : RunEnv) :
    List (String × PlaylistRecord) → List ArchiverElement →
    List (Option (String × String)) × List (String × PlaylistRecord) × Option JsError
  | persistPlaylists, [] => ([], persistPlaylists, none)
  | persistPlaylists, element :: rest =>
    match processPair env persistPlaylists element with
    | .error e => ([], persistPlaylists, some e)
    | .ok (pls, outcome) =>
      let (outs, finalPls, err) := mainSchedulerPairsLoop env pls rest
      (outcome :: outs, finalPls, err)

/-! Basic lemmas about the two set operations of index.js. -/

theorem mem_diff {x : String} {a b : List String} :
    x ∈ diff a b ↔ x ∈ a ∧ x ∉ b := by
  simp [diff]

theorem mem_mergeUnique {x : String} {a b : List String} :
    x ∈ mergeUnique a b ↔ x ∈ a ∨ x ∈ b := by
  simp [mergeUnique, or_comm]

theorem nodup_mergeUnique (a b : List String) : (mergeUnique a b).Nodup := by
  simpa [mergeUnique] using (List.nodup_dedup (a ++ b).reverse)

theorem mergeUnique_nil_right {a : List String} (h : a.Nodup) :
    mergeUnique a [] = a := by
  simp [mergeUnique, List.Nodup.dedup (by simpa using h : a.reverse.Nodup)]

theorem diff_self (l : List String) : diff l l = [] := by
  simp [diff, List.filter_eq_nil_iff]

/-- After a target already holds everything the previous run added, a
further source-minus-target diff filtered by the same blacklist is
empty. -/
theorem diff_diff_append_mergeUnique (src tgt bl : List String) :
    diff (diff src (tgt ++ diff (diff src tgt) bl)) bl = [] := by
  apply List.eq_nil_iff_forall_not_mem.mpr
  intro x hx
  rcases mem_diff.mp hx with ⟨hx1, hxbl⟩
  rcases mem_diff.mp hx1 with ⟨hxs, hxt⟩
  rw [List.mem_append] at hxt
  push_neg at hxt
  exact hxt.2 (mem_diff.mpr ⟨mem_diff.mpr ⟨hxs, hxt.1⟩, hxbl⟩)

/-- C1 counterexample: the claimed identity
`additions = (S − T_now) − B_local − B_global` fails at
`T_prev = []`, `T_now = []`, `S = ["x"]`, `B_local = []`,
`B_global = ["x"]`: the code computes `["x"]` (it never subtracts a
global blacklist), while the claimed value is `[]`. -/
theorem c1_global_blacklist_counterexample :
    ¬ ((playlistArchiveContents ⟨some "Test", [], []⟩ [] ["x"]
        fun adds => adds).additions =
      diff (diff (diff ["x"] []) []) ["x"]) := by
  decide

/-- C1 (amended): the addition set computed by `playlistArchiveContents`
equals `(S − T_now) − B`, where `B` is the record's blacklist after
merging the detected user removals; equivalently it contains exactly the
source tracks that are in neither the live target, the stored blacklist,
nor the previous snapshot.  No global blacklist exists in the code, so
no further subtraction is applied. -/
theorem c1_addition_set_amended (rec : PlaylistRecord)
    (tracksTarget tracksSource : List String)
    (remoteTargetAfterAdd : List String → List String) :
    (playlistArchiveContents rec tracksTarget tracksSource
        remoteTargetAfterAdd).additions =
      diff (diff tracksSource tracksTarget)
        (mergeUnique rec.blacklist (diff rec.tracks tracksTarget)) ∧
    ∀ x, x ∈ (playlistArchiveContents rec tracksTarget tracksSource
        remoteTargetAfterAdd).additions ↔
      x ∈ tracksSource ∧ x ∉ tracksTarget ∧ x ∉ rec.blacklist ∧
        x ∉ rec.tracks := by
  refine ⟨rfl, fun x => ?_⟩
  show x ∈ diff (diff tracksSource tracksTarget)
      (mergeUnique rec.blacklist (diff rec.tracks tracksTarget)) ↔ _
  simp only [mem_diff, mem_mergeUnique]
  tauto

/-- C2: Scenario A.  With previous snapshot `[a,b,c]`, live target
`[a,c]` and live source `[a,b,c,d]`, the user-initiated removal set is
`{b}`, `b` is recorded in the blacklist, and the addition sent to the
target is exactly `{d}`. -/
theorem c2_scenario_a :
    (playlistArchiveContents ⟨some "Test", ["a", "b", "c"], []⟩
        ["a", "c"] ["a", "b", "c", "d"]
        fun adds => ["a", "c"] ++ adds).deletedByMe = ["b"] ∧
    (playlistArchiveContents ⟨some "Test", ["a", "b", "c"], []⟩
        ["a", "c"] ["a", "b", "c", "d"]
        fun adds => ["a", "c"] ++ adds).record.blacklist = ["b"] ∧
    (playlistArchiveContents ⟨some "Test", ["a", "b", "c"], []⟩
        ["a", "c"] ["a", "b", "c", "d"]
        fun adds => ["a", "c"] ++ adds).additions = ["d"] ∧
    (playlistArchiveContents ⟨some "Test", ["a", "b", "c"], []⟩
        ["a", "c"] ["a", "b", "c", "d"]
        fun adds => ["a", "c"] ++ adds).addCalls = [["d"]] := by
  decide

/-- C4: blacklist monotonicity.  Every element of the record's blacklist
before a `playlistArchiveContents` run is still in the blacklist after
the run, whatever the live reads and the remote behaviour are. -/
theorem c4_blacklist_monotone (rec : PlaylistRecord)
    (tracksTarget tracksSource : List String)
    (remoteTargetAfterAdd : List String → List String) (x : String)
    (hx : x ∈ rec.blacklist) :
    x ∈ (playlistArchiveContents rec tracksTarget tracksSource
        remoteTargetAfterAdd).record.blacklist := by
  show x ∈ mergeUnique rec.blacklist (diff rec.tracks tracksTarget)
  exact mem_mergeUnique.mpr (Or.inl hx)

theorem c4_blacklist_monotone_witness :
    "x" ∈ (playlistArchiveContents ⟨none, [], ["x"]⟩ [] []
        fun adds => adds).record.blacklist :=
  c4_blacklist_monotone ⟨none, [], ["x"]⟩ [] [] (fun adds => adds) "x"
    (by decide)

/-- C8: resnapshot.  The record's `tracks` field after a run is exactly
the value of the post-addition live read of the target (the oracle
applied to the sent additions), for every possible remote behaviour —
never the pre-computed addition list itself. -/
theorem c8_resnapshot (rec : PlaylistRecord)
    (tracksTarget tracksSource : List String)
    (remoteTargetAfterAdd : List String → List String) :
    (playlistArchiveContents rec tracksTarget tracksSource
        remoteTargetAfterAdd).record.tracks =
      remoteTargetAfterAdd
        ((playlistArchiveContents rec tracksTarget tracksSource
          remoteTargetAfterAdd).additions) := rfl

/-- C9: empty-batch skip.  `addTracks` issues no remote call exactly when
its argument is a non-array value or an empty array; a non-empty array
issues a call. -/
theorem c9_empty_batch_skip (pid : String) (list : Option (List String)) :
    addTracks pid list = [] ↔ list = none ∨ list = some [] := by
  cases list with
  | none => simp [addTracks]
  | some l => cases l <;> simp [addTracks]

/-- The blacklist produced by one run is deduplicated, so merging it with
an empty removal set leaves it unchanged. -/
theorem mergeUnique_mergeUnique_nil (a b : List String) :
    mergeUnique (mergeUnique a b) [] = mergeUnique a b :=
  mergeUnique_nil_right (nodup_mergeUnique a b)

/-- C3: idempotence.  If the remote appends exactly the sent additions to
the target during the first run and nothing changes remotely between the
runs (the second run's live target read equals the first run's
resnapshot), then the second `playlistArchiveContents` run computes an
empty addition set, issues no remote add call, and leaves the blacklist
exactly as the first run left it. -/
theorem c3_reconcile_idempotent (rec : PlaylistRecord)
    (tracksTarget tracksSource : List String)
    (remote2 : List String → List String) :
    (playlistArchiveContents
        (playlistArchiveContents rec tracksTarget tracksSource
          (fun adds => tracksTarget ++ adds)).record
        (playlistArchiveContents rec tracksTarget tracksSource
          (fun adds => tracksTarget ++ adds)).record.tracks
        tracksSource remote2).additions = [] ∧
    (playlistArchiveContents
        (playlistArchiveContents rec tracksTarget tracksSource
          (fun adds => tracksTarget ++ adds)).record
        (playlistArchiveContents rec tracksTarget tracksSource
          (fun adds => tracksTarget ++ adds)).record.tracks
        tracksSource remote2).record.blacklist =
      (playlistArchiveContents rec tracksTarget tracksSource
        (fun adds => tracksTarget ++ adds)).record.blacklist ∧
    (playlistArchiveContents
        (playlistArchiveContents rec tracksTarget tracksSource
          (fun adds => tracksTarget ++ adds)).record
        (playlistArchiveContents rec tracksTarget tracksSource
          (fun adds => tracksTarget ++ adds)).record.tracks
        tracksSource remote2).addCalls = [] := by
  simp only [playlistArchiveContents]
  simp only [diff_self, mergeUnique_mergeUnique_nil,
    diff_diff_append_mergeUnique]
  simp [addTracks]

/-- C7: persistence-first name lookup trichotomy.  Zero persisted records
with the name yields a fall-through (`.ok none`); the lookup returns a
record exactly when that record is the unique match; two or more matches
raise the ambiguity error `Playlist Name not unique`. -/
theorem c7_persist_lookup_trichotomy (name : String)
    (playlists : List (String × PlaylistRecord)) :
    (playlistByNameInPersist name playlists = .ok none ↔
      (objectFilter playlists
        fun _ playlist => playlist.name == some name).length = 0) ∧
    (∀ r, playlistByNameInPersist name playlists = .ok (some r) ↔
      ∃ k, objectFilter playlists
        (fun _ playlist => playlist.name == some name) = [(k, r)]) ∧
    (playlistByNameInPersist name playlists =
        .error "Playlist Name not unique" ↔
      2 ≤ (objectFilter playlists
        fun _ playlist => playlist.name == some name).length) := by
  rcases h : objectFilter playlists
      fun _ playlist => playlist.name == some name with _ | ⟨e, _ | ⟨e2, tail⟩⟩
  · simp [playlistByNameInPersist, h]
  · rcases e with ⟨k0, v0⟩
    simp [playlistByNameInPersist, h, eq_comm]
  · simp [playlistByNameInPersist, h]

/-- C5 counterexample: with two persisted records both named `Dup`, a run
configured with the ambiguous pair first and a perfectly resolvable pair
second stops at the first pair's ambiguity error: the loop ends with the
error and processes no pair at all, although the second pair on its own
would have been processed. -/
theorem c5_per_pair_isolation_counterexample :
    (mainSchedulerPairsLoop
        { userPlaylists := [⟨"sid", "Src"⟩, ⟨"tid", "Tgt"⟩],
          createPlaylistResult := none }
        [("id1", ⟨some "Dup", [], []⟩), ("id2", ⟨some "Dup", [], []⟩)]
        [⟨⟨none, "Dup"⟩, ⟨none, "Dup (save)"⟩⟩,
         ⟨⟨some "sid", "Src"⟩, ⟨some "tid", "Tgt"⟩⟩]) =
      ([], [("id1", ⟨some "Dup", [], []⟩), ("id2", ⟨some "Dup", [], []⟩)],
        some (.thrown "Playlist Name not unique")) ∧
    processPair
        { userPlaylists := [⟨"sid", "Src"⟩, ⟨"tid", "Tgt"⟩],
          createPlaylistResult := none }
        [("id1", ⟨some "Dup", [], []⟩), ("id2", ⟨some "Dup", [], []⟩)]
        ⟨⟨some "sid", "Src"⟩, ⟨some "tid", "Tgt"⟩⟩ =
      .ok ([("id1", ⟨some "Dup", [], []⟩), ("id2", ⟨some "Dup", [], []⟩),
            ("tid", ⟨some "Tgt", [], []⟩), ("sid", ⟨some "Src", [], []⟩)],
        some ("sid", "tid")) :=
  ⟨rfl, rfl⟩

/-- C5 (amended): an exception raised while a pair is being resolved is
caught (and logged) only by the run-level handler: it ends the pair loop,
so none of the remaining configured pairs of that run is processed, and
the loop reports the error that the run-level catch then logs. -/
theorem c5_run_level_abort (env : RunEnv)
    (persistPlaylists : List (String × PlaylistRecord))
    (element : ArchiverElement) (rest : List ArchiverElement) (e : JsError)
    (h : processPair env persistPlaylists element = .error e) :
    mainSchedulerPairsLoop env persistPlaylists (element :: rest) =
      ([], persistPlaylists, some e) := by
  simp [mainSchedulerPairsLoop, h]

theorem c5_run_level_abort_witness :
    mainSchedulerPairsLoop
        { userPlaylists := [], createPlaylistResult := none }
        [("id1", ⟨some "Dup", [], []⟩), ("id2", ⟨some "Dup", [], []⟩)]
        [⟨⟨none, "Dup"⟩, ⟨none, "Dup (save)"⟩⟩] =
      ([], [("id1", ⟨some "Dup", [], []⟩), ("id2", ⟨some "Dup", [], []⟩)],
        some (.thrown "Playlist Name not unique")) :=
  c5_run_level_abort _ _ _ [] _ rfl

/-- C6 counterexample: a 250-element addition list issues exactly one
remote add call carrying all 250 tracks, not three calls of sizes
100, 100 and 50 — `addTracks` performs no chunking. -/
theorem c6_chunking_counterexample :
    (addTracks "target" (some ((List.range 250).map toString))).map
        List.length = [250] ∧
    ¬ ((addTracks "target" (some ((List.range 250).map toString))).map
        List.length = [100, 100, 50]) := by
  constructor
  · simp [addTracks]
  · simp [addTracks]

/-- C6 (amended): the apply-additions step issues exactly one remote add
call containing the entire surviving candidate list in its original
order whenever that list is non-empty; there is no chunking, so a
250-element list goes out as a single call of size 250. -/
theorem c6_single_call_amended (pid : String) (list : List String)
    (h : list ≠ []) : addTracks pid (some list) = [list] := by
  cases list with
  | nil => exact absurd rfl h
  | cons a l => simp [addTracks]

theorem c6_single_call_witness :
    addTracks "target" (some ["spotify:track:a"]) = [["spotify:track:a"]] :=
  c6_single_call_amended "target" ["spotify:track:a"] (List.cons_ne_nil _ _)

/-- C10: after both ids of a pair resolve, the loop body dereferences
`userPlaylists.find(p => p.id === id).name` without a guard; if either
resolved id is absent from the live snapshot this raises a TypeError,
which ends the whole pair loop instead of skipping just that pair. -/
theorem c10_unguarded_name_dereference (env : RunEnv)
    (persistPlaylists : List (String × PlaylistRecord))
    (element : ArchiverElement) (rest : List ArchiverElement)
    (sid tid : String)
    (hs : resolveDescriptor persistPlaylists env.userPlaylists
      element.source = .ok (some sid))
    (ht : resolveDescriptor persistPlaylists env.userPlaylists
      element.target = .ok (some tid))
    (habsent : env.userPlaylists.find? (fun p => p.id == sid) = none ∨
      env.userPlaylists.find? (fun p => p.id == tid) = none) :
    processPair env persistPlaylists element = .error .typeError ∧
    mainSchedulerPairsLoop env persistPlaylists (element :: rest) =
      ([], persistPlaylists, some .typeError) := by
  have hp : processPair env persistPlaylists element = .error .typeError := by
    unfold processPair
    rw [hs, ht]
    rcases habsent with h | h
    · simp [h]
    · cases hfind : env.userPlaylists.find? fun p => p.id == sid with
      | none => simp [hfind]
      | some sourcePl => simp [hfind, h]
  exact ⟨hp, by simp [mainSchedulerPairsLoop, hp]⟩

theorem c10_unguarded_name_dereference_witness :
    processPair { userPlaylists := [], createPlaylistResult := none } []
        ⟨⟨some "s", "A"⟩, ⟨some "t", "B"⟩⟩ = .error .typeError ∧
    mainSchedulerPairsLoop { userPlaylists := [], createPlaylistResult := none }
        [] [⟨⟨some "s", "A"⟩, ⟨some "t", "B"⟩⟩] = ([], [], some .typeError) :=
  c10_unguarded_name_dereference
    { userPlaylists := [], createPlaylistResult := none } []
    ⟨⟨some "s", "A"⟩, ⟨some "t", "B"⟩⟩ [] "s" "t" rfl rfl (Or.inl rfl)
